import Mathlib

/-!
A shallow embedding of `custom_components/owie/sensor.py` from the
`home-assistant_owie` integration, together with theorems about the
connectivity/staleness tracker, the battery-level state holder, the
payload sanitizer and the charge-speed classifier.

Modelling conventions:
- Python strings become `String`, Python `int` becomes `Int`, Python
  `float` becomes `ℚ` (the code only parses and compares amperages, it
  never does float arithmetic, so the ordered-field behaviour is exact).
- Each stateful sensor object becomes a structure holding exactly the
  mutable fields the Python class mutates, and each property method that
  mutates `self` becomes a function `state → input → output × state`.
- The embedded HTML tables are represented by their parsed structure (a
  list of `<tr>` rows, each the list of its `<td>` cell texts), since the
  HTML parsing itself is done by the external BeautifulSoup library.
- Fallible code (the `update` poll, sanitizing) returns `Option`; `none`
  models an exception escaping the modelled code.
-/

namespace Owie

/-- The union of the character sets stripped by the chained
`.strip('v').strip(' Amps').strip('%').strip('%').strip(' mAh').strip(' mAh')`
calls in `sanitize_response`.  Python `str.strip(chars)` strips any
character of the set from both ends. -/
def badChars : List Char := ['v', ' ', 'A', 'm', 'p', 's', '%', 'h']

/-- Python `str.strip(chars)` on the character list of a string: remove
every character contained in `cs` from both ends. -/
def stripChars (cs : List Char) (l : List Char) : List Char :=
  ((l.dropWhile (fun c => decide (c ∈ cs))).reverse.dropWhile
    (fun c => decide (c ∈ cs))).reverse

/-- Python `str.strip(chars)` at the `String` level. -/
def pyStripChars (cs : List Char) (s : String) : String :=
  String.mk (stripChars cs s.data)

/-- Python `str.strip()` with no argument (used on the table cell texts):
strip ASCII whitespace from both ends. -/
def pyStrip (s : String) : String :=
  pyStripChars [' ', '\t', '\n', '\r', '\x0b', '\x0c'] s

/-- The chain
`.strip('v').strip(' Amps').strip('%').strip('%').strip(' mAh').strip(' mAh')`
applied by `sanitize_response` to each of the six numeric fields. -/
def sanitizeField (s : String) : String :=
  pyStripChars [' ', 'm', 'A', 'h']
    (pyStripChars [' ', 'm', 'A', 'h']
      (pyStripChars ['%']
        (pyStripChars ['%']
          (pyStripChars [' ', 'A', 'm', 'p', 's']
            (pyStripChars ['v'] s)))))

/-- A table-valued entry of the payload dictionary.  Before sanitizing it
is a raw (truthy) markup string, represented here by its parsed rows; after
sanitizing it is a key→value mapping (a Python `dict` built by
`dict(zip(keys, values))`, represented as the association list produced by
that zip). -/
inductive TableVal where
  | markup (rows : List (List String))
  | mapping (entries : List (String × String))
deriving DecidableEq

/-- The `self.info` dictionary of `OwieData` / the JSON body returned by the
device, with the fields the code reads.  Table fields are optional because
`owie_json.get(...)` tolerates their absence. -/
structure Payload where
  TOTAL_VOLTAGE : String
  CURRENT_AMPS : String
  BMS_SOC : String
  OVERRIDDEN_SOC : String
  USED_CHARGE_MAH : String
  REGENERATED_CHARGE_MAH : String
  UPTIME : String
  CELL_VOLTAGE_TABLE : Option TableVal
  TEMPERATURE_TABLE : Option TableVal
deriving DecidableEq

/-- `[f'Cell {i}' for i in range(1, 16)]`. -/
def cellVoltageKeys : List String :=
  (List.range 15).map (fun i => "Cell " ++ toString (i + 1))

/-- `[f'Temp {i}' for i in range(1, 6)]`. -/
def temperatureKeys : List String :=
  (List.range 5).map (fun i => "Temp " ++ toString (i + 1))

/-- The row loop of `sanitize_response`: for each `<tr>`, collect the
stripped `<td>` texts that are non-empty; the first row with a non-empty
collection is taken (`extend` then `break`); if no row qualifies the value
list stays empty. -/
def firstNonEmptyRow : List (List String) → List String
  | [] => []
  | row :: rest =>
    let r := (row.map pyStrip).filter (fun t => t != "")
    if r.isEmpty then firstNonEmptyRow rest else r

/-- The table half of `sanitize_response` for one table field with its key
list: an absent field (`.get` returned `None`) is skipped; a truthy markup
string is parsed and `dict(zip(keys, values))` is built from the first
non-empty row; an empty mapping (falsy) is skipped; a non-empty mapping is
not a string, and `BeautifulSoup` raises `TypeError` on it (`none`). -/
def sanitizeTable (keys : List String) : Option TableVal → Option (Option TableVal)
  | none => some none
  | some (TableVal.markup rows) =>
      some (some (TableVal.mapping (keys.zip (firstNonEmptyRow rows))))
  | some (TableVal.mapping entries) =>
      if entries.isEmpty then some (some (TableVal.mapping entries)) else none

/-- `sanitize_response`: strip the six numeric fields, then convert the two
table fields.  `none` models an exception escaping the function. -/
def sanitize_response (p : Payload) : Option Payload := do
  let cvt ← sanitizeTable cellVoltageKeys p.CELL_VOLTAGE_TABLE
  let tt ← sanitizeTable temperatureKeys p.TEMPERATURE_TABLE
  pure { p with
    TOTAL_VOLTAGE := sanitizeField p.TOTAL_VOLTAGE
    CURRENT_AMPS := sanitizeField p.CURRENT_AMPS
    BMS_SOC := sanitizeField p.BMS_SOC
    OVERRIDDEN_SOC := sanitizeField p.OVERRIDDEN_SOC
    USED_CHARGE_MAH := sanitizeField p.USED_CHARGE_MAH
    REGENERATED_CHARGE_MAH := sanitizeField p.REGENERATED_CHARGE_MAH
    CELL_VOLTAGE_TABLE := cvt
    TEMPERATURE_TABLE := tt }

/-- `charge_speed`: map an amperage to its charge-speed label. -/
def charge_speed (amps : ℚ) : String :=
  if amps ≥ 0 then "Not Charging"
  else if amps > -1 then "Balance Charging"
  else if amps > -2 then "Pint Charger"
  else if amps > -4 then "XR|Pint Ultracharger"
  else if amps > -6 then "XR Hypercharger"
  else "Unknown Charger"

namespace OwieData

/-- The `self.info` defaults installed by `OwieData.__init__`. -/
def init : Payload where
  TOTAL_VOLTAGE := "0"
  CURRENT_AMPS := "0"
  BMS_SOC := "0"
  OVERRIDDEN_SOC := "-1"
  USED_CHARGE_MAH := "0"
  REGENERATED_CHARGE_MAH := "0"
  UPTIME := "Offline"
  CELL_VOLTAGE_TABLE := some (TableVal.mapping (cellVoltageKeys.map (fun k => (k, "0"))))
  TEMPERATURE_TABLE := some (TableVal.mapping (temperatureKeys.map (fun k => (k, "0"))))

/-- The outcome of `requests.get(...)` inside `OwieData.update`:
`netError` is an `OSError` (connection failure / timeout — caught by the
`except OSError` handler); otherwise the device answered with a status code
and a JSON body. -/
inductive FetchOutcome where
  | netError
  | response (status_code : Nat) (body : Payload)

/-- `OwieData.update`.  `requests.codes.bad` is the number 400, so only
that exact status takes the logged early-return path; every other status,
success or not, flows into `self.info = sanitize_response(response.json())`.
The result is the new value of `self.info`; `none` models an exception
escaping `update`. -/
def update (cache : Payload) (f : FetchOutcome) : Option Payload :=
  match f with
  | FetchOutcome.netError => some cache
  | FetchOutcome.response status_code body =>
    if status_code = 400 then some cache
    else sanitize_response body

end OwieData

namespace OwieBatterySensor

/-- The mutable fields of `OwieBatterySensor`: `self._state` and
`self._last_state`. -/
structure State where
  _state : Int
  _last_state : Option Int
deriving DecidableEq

/-- `OwieBatterySensor.__init__`: `_state = -1`, `_last_state = None`. -/
def init : State := ⟨-1, none⟩

/-- `async_added_to_hass`: if the host supplies a persisted last state,
store it in `self._last_state`. -/
def async_added_to_hass (s : State) (restored : Option Int) : State :=
  match restored with
  | some v => { s with _last_state := some v }
  | none => s

/-- The `state` property.  `override_value` is
`int(self.data.info['OVERRIDDEN_SOC'])`.  Returns the reported value and
the updated object state. -/
def state (s : State) (override_value : Int) : Int × State :=
  if s._last_state.isSome ∧ s._state = -1 then
    let v := s._last_state.getD 0
    (v, ⟨v, none⟩)
  else if s._state ≠ -1 ∧ override_value = -1 then
    (s._state, s)
  else if override_value ≠ -1 then
    (override_value, { s with _state := override_value })
  else
    (0, { s with _state := 0 })

/-- Repeated reads of the `state` property against a sequence of
`OVERRIDDEN_SOC` values: the list of reported values and the final state. -/
def reads (s : State) : List Int → List Int × State
  | [] => ([], s)
  | ov :: rest =>
    let r := state s ov
    let rest' := reads r.2 rest
    (r.1 :: rest'.1, rest'.2)

end OwieBatterySensor

namespace OwieConnectivitySensor

/-- The mutable fields of `OwieConnectivitySensor`: `_new_uptime`,
`_old_uptime` and `_missed_packets` (`_max_missed_packets` is set once in
`__init__` and never changes, so it is passed as the parameter `mpm`). -/
structure State where
  _new_uptime : String
  _old_uptime : String
  _missed_packets : Int
deriving DecidableEq

/-- `OwieConnectivitySensor.__init__` (uptimes `'Offline'`, counter 0). -/
def init : State := ⟨"Offline", "Offline", 0⟩

/-- The `is_on` property: compare the latest `UPTIME` string with the
stored one and report connectivity.  Returns the reported boolean and the
updated object state. -/
def is_on (mpm : Int) (s : State) (uptime : String) : Bool × State :=
  if uptime ≠ "Offline" ∧ uptime = s._old_uptime then
    if s._missed_packets < mpm then
      (true, { s with _new_uptime := uptime, _missed_packets := s._missed_packets + 1 })
    else
      (false, { s with _new_uptime := uptime })
  else if uptime ≠ "Offline" ∧ uptime ≠ s._old_uptime then
    (true, { s with _new_uptime := uptime, _missed_packets := 0, _old_uptime := uptime })
  else
    (false, { s with _new_uptime := uptime, _missed_packets := 0 })

/-- Repeated reads of `is_on` against a sequence of uptime readings: the
list of reported connectivity values and the final state. -/
def reads (mpm : Int) (s : State) : List String → List Bool × State
  | [] => ([], s)
  | u :: rest =>
    let r := is_on mpm s u
    let rest' := reads mpm r.2 rest
    (r.1 :: rest'.1, rest'.2)

end OwieConnectivitySensor

namespace OwieChargingSensor

/-- The mutable fields of `OwieChargingSensor`: `current_current`,
`_new_uptime`, `_old_uptime`, `_missed_packets`, `_connected`. -/
structure State where
  current_current : ℚ
  _new_uptime : String
  _old_uptime : String
  _missed_packets : Int
  _connected : Bool
deriving DecidableEq

/-- `OwieChargingSensor.__init__` (`current_current = 1`, uptimes
`'Offline'`, counter 0, `_connected = False`). -/
def init : State := ⟨1, "Offline", "Offline", 0, false⟩

/-- The connectivity block at the top of `OwieChargingSensor.is_on`
(the same uptime-comparison logic as the connectivity sensor, except that
it records the verdict in `self._connected`). -/
def connectivity_update (mpm : Int) (s : State) (uptime : String) : State :=
  if uptime ≠ "Offline" ∧ uptime = s._old_uptime then
    if s._missed_packets < mpm then
      { s with _new_uptime := uptime, _missed_packets := s._missed_packets + 1,
               _connected := true }
    else
      { s with _new_uptime := uptime, _connected := false }
  else if uptime ≠ "Offline" ∧ uptime ≠ s._old_uptime then
    { s with _new_uptime := uptime, _missed_packets := 0, _old_uptime := uptime,
             _connected := true }
  else
    { s with _new_uptime := uptime, _missed_packets := 0, _connected := false }

/-- The `is_on` property of the charging sensor: run the connectivity
block, then either adopt `CURRENT_AMPS` as `current_current` and report
charging iff it is negative, or force `current_current = 0` and report not
charging.  `amps` is `float(self.data.info['CURRENT_AMPS'])`. -/
def is_on (mpm : Int) (s : State) (uptime : String) (amps : ℚ) : Bool × State :=
  let s1 := connectivity_update mpm s uptime
  if s1._connected = true then
    let s2 := { s1 with current_current := amps }
    if amps ≥ 0 then (false, s2) else (true, s2)
  else
    (false, { s1 with current_current := 0 })

/-- The `'Charge Speed'` entry of `extra_state_attributes`:
`charge_speed(self.current_current)`. -/
def charge_speed_attribute (s : State) : String := charge_speed s.current_current

end OwieChargingSensor

/-- A payload in which both optional table fields are absent and every
numeric field is `'0'` except `OVERRIDDEN_SOC = '-1'` (the numeric defaults
of `OwieData.__init__`). -/
def pClean : Payload :=
  { OwieData.init with CELL_VOLTAGE_TABLE := none, TEMPERATURE_TABLE := none }

/-- A raw payload whose `OVERRIDDEN_SOC` is `'%v87'`. -/
def pRaw : Payload := { pClean with OVERRIDDEN_SOC := "%v87" }

/-- The sanitized form of `pRaw`: stripping `'%v87'` yields `'v87'`
(the `%`-strip exposes a leading `v` that the earlier `v`-strip can no
longer remove). -/
def pSanitized : Payload := { pClean with OVERRIDDEN_SOC := "v87" }

/-- A well-formed body as a reachable device could send it alongside a
non-success status code: fresh uptime, changed battery override, no table
fields. -/
def serverErrorBody : Payload :=
  { pClean with OVERRIDDEN_SOC := "7", UPTIME := "10" }

/-- A numeric field is untouched by every strip in the chain exactly when
neither its first nor its last character is one of the stripped
characters. -/
def cleanEnds (s : String) : Bool :=
  (match s.data.head? with
   | none => true
   | some c => !(decide (c ∈ badChars))) &&
  (match s.data.getLast? with
   | none => true
   | some c => !(decide (c ∈ badChars)))

/-!
Theorems.  Each claim theorem carries the claim id in its doc comment.
-/

/-- C1, counterexample: from the freshly initialized tracker with
`max_missed = 3` the readings `["Offline", "10", "10", "10", "10"]` do NOT
yield `[false, true, true, true, false]` — the bound is checked before the
increment, so the read that raises `missed_count` to 3 still reports
`true`. -/
theorem connectivity_run_ne_spec :
    (OwieConnectivitySensor.reads 3 OwieConnectivitySensor.init
      ["Offline", "10", "10", "10", "10"]).1
      ≠ [false, true, true, true, false] := by decide

/-- C1, amended: the readings `["Offline", "10", "10", "10", "10"]` with
`max_missed = 3` yield `[false, true, true, true, true]`; readings 3–5 take
the stall path raising `missed_count` to 1, 2, 3 while still reporting
`true` (the bound is compared before incrementing), and connectivity first
reports `false` on a 6th identical reading, when `missed_count` is already
3. -/
theorem connectivity_run_amended :
    (OwieConnectivitySensor.reads 3 OwieConnectivitySensor.init
      ["Offline", "10", "10", "10", "10"]).1 = [false, true, true, true, true]
    ∧ (OwieConnectivitySensor.reads 3 OwieConnectivitySensor.init
      ["Offline", "10", "10", "10", "10"]).2._missed_packets = 3
    ∧ (OwieConnectivitySensor.reads 3 OwieConnectivitySensor.init
      ["Offline", "10", "10", "10", "10", "10"]).1
      = [false, true, true, true, true, false] := by decide

/-- C2, counterexample: a non-success status other than 400 (here 500)
does NOT leave the cache untouched — the body is sanitized and replaces
the previously cached `LatestInfo`. -/
theorem update_server_error_counterexample :
    OwieData.update OwieData.init
      (OwieData.FetchOutcome.response 500 serverErrorBody)
      ≠ some OwieData.init := by decide

/-- C2, amended: an `Unreachable` outcome (`OSError`: connection failure or
timeout) leaves the cache unchanged and propagates no exception, and so
does an HTTP 400 response (`requests.codes.bad` is exactly 400); but a
response with any other status code, success or not, is parsed and
sanitized and its result replaces the cache. -/
theorem update_error_handling_amended (cache body : Payload) (status_code : Nat) :
    OwieData.update cache OwieData.FetchOutcome.netError = some cache
    ∧ OwieData.update cache (OwieData.FetchOutcome.response 400 body) = some cache
    ∧ (status_code ≠ 400 →
        OwieData.update cache (OwieData.FetchOutcome.response status_code body)
          = sanitize_response body) := by
  refine ⟨rfl, by simp [OwieData.update], fun h => by simp [OwieData.update, h]⟩

/-- Witness for the amended C2 theorem at the initial cache, the concrete
body `serverErrorBody` and status 500. -/
theorem update_error_handling_amended_witness :
    OwieData.update OwieData.init OwieData.FetchOutcome.netError = some OwieData.init
    ∧ OwieData.update OwieData.init (OwieData.FetchOutcome.response 400 serverErrorBody)
        = some OwieData.init
    ∧ OwieData.update OwieData.init (OwieData.FetchOutcome.response 500 serverErrorBody)
        = sanitize_response serverErrorBody :=
  ⟨(update_error_handling_amended OwieData.init serverErrorBody 500).1,
   (update_error_handling_amended OwieData.init serverErrorBody 500).2.1,
   (update_error_handling_amended OwieData.init serverErrorBody 500).2.2 (by decide)⟩

/-- C3: a battery sensor that attaches with restored value 42 first reports
42 when the device still shows the `-1` sentinel (consuming the restored
value), then adopts a live reading of 67, and from then on every read under
the `-1` sentinel keeps reporting 67 with the restored value gone
(`_last_state = none`). -/
theorem battery_restore_scenario :
    OwieBatterySensor.async_added_to_hass OwieBatterySensor.init (some 42)
      = ⟨-1, some 42⟩
    ∧ OwieBatterySensor.reads ⟨-1, some 42⟩ [-1, 67] = ([42, 67], ⟨67, none⟩)
    ∧ ∀ n : Nat, OwieBatterySensor.reads ⟨67, none⟩ (List.replicate n (-1))
        = (List.replicate n 67, ⟨67, none⟩) := by
  refine ⟨rfl, by decide, ?_⟩
  intro n
  induction n with
  | zero => rfl
  | succ k ih =>
    have hstep : OwieBatterySensor.state ⟨67, none⟩ (-1) = (67, ⟨67, none⟩) := by decide
    rw [List.replicate_succ, List.replicate_succ]
    simp [OwieBatterySensor.reads, hstep, ih]

/-- C8: amperage-to-label bands of `charge_speed`.  `Not Charging` holds
exactly for `amps ≥ 0`, `Unknown Charger` exactly for `amps ≤ -6`, and the
intermediate bands are half-open intervals whose boundary points `-1`,
`-2`, `-4`, `-6` each fall into the more-negative band. -/
theorem charge_speed_bands (amps : ℚ) :
    ((charge_speed amps = "Not Charging" ↔ 0 ≤ amps)
    ∧ (charge_speed amps = "Unknown Charger" ↔ amps ≤ -6)
    ∧ (charge_speed amps = "Balance Charging" ↔ -1 < amps ∧ amps < 0)
    ∧ (charge_speed amps = "Pint Charger" ↔ -2 < amps ∧ amps ≤ -1)
    ∧ (charge_speed amps = "XR|Pint Ultracharger" ↔ -4 < amps ∧ amps ≤ -2)
    ∧ (charge_speed amps = "XR Hypercharger" ↔ -6 < amps ∧ amps ≤ -4))
    ∧ charge_speed (-1) = "Pint Charger"
    ∧ charge_speed (-2) = "XR|Pint Ultracharger"
    ∧ charge_speed (-4) = "XR Hypercharger"
    ∧ charge_speed (-6) = "Unknown Charger" := by
  constructor
  · unfold charge_speed
    split_ifs with h1 h2 h3 h4 h5 <;>
      refine ⟨?_, ?_, ?_, ?_, ?_, ?_⟩ <;>
      simp only [String.reduceEq, false_iff, true_iff, iff_false, iff_true,
        not_and, not_lt, not_le] <;>
      first
        | linarith
        | (constructor <;> linarith)
        | (intro h; linarith)
  · refine ⟨?_, ?_, ?_, ?_⟩ <;> norm_num [charge_speed]

/-- Generic fact about `dict(zip(keys, values))`: the keys of the zip are
the leading keys, one per value. -/
theorem map_fst_zip_take {α β : Type} :
    ∀ (l1 : List α) (l2 : List β), (l1.zip l2).map Prod.fst = l1.take l2.length
  | [], l2 => by simp
  | a :: l1, [] => by simp
  | a :: l1, b :: l2 => by simp [map_fst_zip_take l1 l2]

/-- Generic fact about `dict(zip(keys, values))`: the values of the zip are
the leading values, one per key. -/
theorem map_snd_zip_take {α β : Type} :
    ∀ (l1 : List α) (l2 : List β), (l1.zip l2).map Prod.snd = l2.take l1.length
  | [], l2 => by simp
  | a :: l1, [] => by simp
  | a :: l1, b :: l2 => by simp [map_snd_zip_take l1 l2]

/-- C9: for any parsed cell-voltage table, the sanitizer produces exactly
`dict(zip(['Cell 1', ..., 'Cell 15'], values))` for the values of the first
non-empty row, without failing; the keys present are the leading `Cell i`
keys matched one-to-one in row order (no padding when there are fewer than
15 values), and the bound values are the first 15 row values in order
(surplus values beyond the 15 keys are dropped). -/
theorem cell_table_zip_spec (rows : List (List String)) :
    sanitizeTable cellVoltageKeys (some (TableVal.markup rows))
      = some (some (TableVal.mapping (cellVoltageKeys.zip (firstNonEmptyRow rows))))
    ∧ cellVoltageKeys = ["Cell 1", "Cell 2", "Cell 3", "Cell 4", "Cell 5",
        "Cell 6", "Cell 7", "Cell 8", "Cell 9", "Cell 10", "Cell 11",
        "Cell 12", "Cell 13", "Cell 14", "Cell 15"]
    ∧ (cellVoltageKeys.zip (firstNonEmptyRow rows)).map Prod.fst
        = cellVoltageKeys.take (firstNonEmptyRow rows).length
    ∧ (cellVoltageKeys.zip (firstNonEmptyRow rows)).map Prod.snd
        = (firstNonEmptyRow rows).take 15 := by
  refine ⟨rfl, by decide, map_fst_zip_take _ _, ?_⟩
  rw [map_snd_zip_take cellVoltageKeys (firstNonEmptyRow rows)]
  have h : cellVoltageKeys.length = 15 := by decide
  rw [h]

/-- C10: an `'Offline'` reading resets `missed_count` but does not clear the
stored previous uptime: a tracker that last stored the non-`'Offline'`
uptime `u` and then processes `["Offline", u]` reports `[false, true]`, the
second reading being a stall that raises `missed_count` to 1 rather than a
fresh connection. -/
theorem offline_then_same_uptime (mpm m : Int) (nu u : String)
    (hu : u ≠ "Offline") (hm : 1 ≤ mpm) :
    OwieConnectivitySensor.reads mpm ⟨nu, u, m⟩ ["Offline", u]
      = ([false, true], ⟨u, u, 1⟩) := by
  have h1 : OwieConnectivitySensor.is_on mpm ⟨nu, u, m⟩ "Offline"
      = (false, ⟨"Offline", u, 0⟩) := by
    unfold OwieConnectivitySensor.is_on
    rw [if_neg (by simp), if_neg (by simp)]
  have h2 : OwieConnectivitySensor.is_on mpm ⟨"Offline", u, 0⟩ u
      = (true, ⟨u, u, 1⟩) := by
    unfold OwieConnectivitySensor.is_on
    rw [if_pos ⟨hu, rfl⟩, if_pos (by omega : (0 : Int) < mpm)]
    norm_num
  simp [OwieConnectivitySensor.reads, h1, h2]

/-- `dropWhile` is the identity when the head does not satisfy the
predicate. -/
theorem dropWhile_eq_self_of_head {p : Char → Bool} :
    ∀ (l : List Char), (∀ c, l.head? = some c → p c = false) →
      l.dropWhile p = l
  | [], _ => rfl
  | a :: t, h => by
    have ha := h a rfl
    simp [List.dropWhile, ha]

/-- Python `str.strip(chars)` is the identity on a string whose two end
characters are outside the stripped set. -/
theorem stripChars_eq_self (cs : List Char) (l : List Char)
    (hh : ∀ c, l.head? = some c → decide (c ∈ cs) = false)
    (hl : ∀ c, l.getLast? = some c → decide (c ∈ cs) = false) :
    stripChars cs l = l := by
  unfold stripChars
  rw [dropWhile_eq_self_of_head l hh]
  rw [dropWhile_eq_self_of_head l.reverse
    (fun c hc => hl c (by rwa [List.head?_reverse] at hc))]
  exact List.reverse_reverse l

/-- String-level version of `stripChars_eq_self`. -/
theorem pyStripChars_eq_self (cs : List Char) (s : String)
    (hh : ∀ c, s.data.head? = some c → decide (c ∈ cs) = false)
    (hl : ∀ c, s.data.getLast? = some c → decide (c ∈ cs) = false) :
    pyStripChars cs s = s := by
  unfold pyStripChars
  rw [stripChars_eq_self cs s.data hh hl]

/-- A `cleanEnds` string does not start with any stripped character. -/
theorem cleanEnds_head (s : String) (h : cleanEnds s = true) :
    ∀ c, s.data.head? = some c → c ∉ badChars := by
  intro c hc
  unfold cleanEnds at h
  rw [hc] at h
  rcases (Bool.and_eq_true _ _).mp h with ⟨h1, -⟩
  simpa using h1

/-- A `cleanEnds` string does not end with any stripped character. -/
theorem cleanEnds_last (s : String) (h : cleanEnds s = true) :
    ∀ c, s.data.getLast? = some c → c ∉ badChars := by
  intro c hc
  unfold cleanEnds at h
  rw [hc] at h
  rcases (Bool.and_eq_true _ _).mp h with ⟨-, h2⟩
  simpa using h2

/-- The whole strip chain of `sanitize_response` is the identity on a
string whose two end characters avoid every stripped character. -/
theorem sanitizeField_eq_self (s : String) (h : cleanEnds s = true) :
    sanitizeField s = s := by
  have hh := cleanEnds_head s h
  have hl := cleanEnds_last s h
  have strip : ∀ cs : List Char, (∀ c ∈ cs, c ∈ badChars) →
      pyStripChars cs s = s := by
    intro cs hsub
    refine pyStripChars_eq_self cs s ?_ ?_
    · intro c hc
      exact decide_eq_false (fun hmem => hh c hc (hsub c hmem))
    · intro c hc
      exact decide_eq_false (fun hmem => hl c hc (hsub c hmem))
  unfold sanitizeField
  rw [strip ['v'] (by decide), strip [' ', 'A', 'm', 'p', 's'] (by decide),
      strip ['%'] (by decide), strip ['%'] (by decide),
      strip [' ', 'm', 'A', 'h'] (by decide), strip [' ', 'm', 'A', 'h'] (by decide)]

/-- C5, counterexample: the sanitizer is not idempotent, not even on its
own output.  The raw field `'%v87'` sanitizes to `'v87'` (a payload in
sanitized form with no unit suffix), but sanitizing that output again
changes it to `'87'`, because `str.strip` removes set members from both
ends and the `%`-strip exposed a leading `v` for the (already passed)
`v`-strip. -/
theorem sanitize_not_idempotent :
    sanitize_response pRaw = some pSanitized
    ∧ sanitize_response pSanitized ≠ some pSanitized := by decide

/-- C5, amended: sanitizing is a no-op (and does not fail) on a payload
whose table fields are absent and whose six numeric fields neither begin
nor end with one of the stripped characters
`'v'`, `' '`, `'A'`, `'m'`, `'p'`, `'s'`, `'%'`, `'h'`.  Merely having "no
unit suffix" is not enough, since the strips remove a character set from
both string ends, not suffixes. -/
theorem sanitize_noop_on_clean (p : Payload)
    (hcv : p.CELL_VOLTAGE_TABLE = none) (htt : p.TEMPERATURE_TABLE = none)
    (h1 : cleanEnds p.TOTAL_VOLTAGE = true)
    (h2 : cleanEnds p.CURRENT_AMPS = true)
    (h3 : cleanEnds p.BMS_SOC = true)
    (h4 : cleanEnds p.OVERRIDDEN_SOC = true)
    (h5 : cleanEnds p.USED_CHARGE_MAH = true)
    (h6 : cleanEnds p.REGENERATED_CHARGE_MAH = true) :
    sanitize_response p = some p := by
  obtain ⟨f1, f2, f3, f4, f5, f6, f7, cv, tt⟩ := p
  replace hcv : cv = none := hcv
  replace htt : tt = none := htt
  replace h1 : cleanEnds f1 = true := h1
  replace h2 : cleanEnds f2 = true := h2
  replace h3 : cleanEnds f3 = true := h3
  replace h4 : cleanEnds f4 = true := h4
  replace h5 : cleanEnds f5 = true := h5
  replace h6 : cleanEnds f6 = true := h6
  subst hcv
  subst htt
  simp [sanitize_response, sanitizeTable, sanitizeField_eq_self _ h1,
    sanitizeField_eq_self _ h2, sanitizeField_eq_self _ h3,
    sanitizeField_eq_self _ h4, sanitizeField_eq_self _ h5,
    sanitizeField_eq_self _ h6]

/-- Witness for the amended C5 theorem at the table-free default payload. -/
theorem sanitize_noop_on_clean_witness :
    sanitize_response pClean = some pClean :=
  sanitize_noop_on_clean pClean rfl rfl (by decide) (by decide) (by decide)
    (by decide) (by decide) (by decide)

/-- One read of the battery `state` property neither reports nor stores a
negative value, provided the stored value is already non-negative and the
override is either the `-1` sentinel or a genuine (non-negative)
percentage. -/
theorem battery_step_nonneg (s : OwieBatterySensor.State) (ov : Int)
    (hs : 0 ≤ s._state) (hov : ov = -1 ∨ 0 ≤ ov) :
    0 ≤ (OwieBatterySensor.state s ov).1
    ∧ 0 ≤ (OwieBatterySensor.state s ov).2._state := by
  unfold OwieBatterySensor.state
  split_ifs with h1 h2 h3
  · exfalso; obtain ⟨-, h12⟩ := h1; omega
  · exact ⟨hs, hs⟩
  · rcases hov with h | h
    · exact absurd h h3
    · exact ⟨h, h⟩
  · exact ⟨le_refl 0, le_refl 0⟩

/-- C4: once the holder carries a non-negative value (`0 ≤ _state`, the
situation after adopting a non-negative restored value or observing a
non-sentinel live value), every subsequent read against overrides drawn
from the sentinel `-1` or genuine percentages reports a value `≥ 0` and
keeps `_state ≥ 0`; moreover adopting a non-negative restored value, and
observing a non-negative live value with no pending restore, each establish
`0 ≤ _state`. -/
theorem battery_never_negative_after_adoption (ovs : List Int)
    (s : OwieBatterySensor.State)
    (hovs : ∀ ov ∈ ovs, ov = -1 ∨ 0 ≤ ov) (hs : 0 ≤ s._state) :
    (∀ v ∈ (OwieBatterySensor.reads s ovs).1, 0 ≤ v)
    ∧ 0 ≤ (OwieBatterySensor.reads s ovs).2._state
    ∧ (∀ r ov : Int, 0 ≤ r →
        0 ≤ (OwieBatterySensor.state ⟨-1, some r⟩ ov).2._state)
    ∧ (∀ ov : Int, 0 ≤ ov →
        0 ≤ (OwieBatterySensor.state ⟨-1, none⟩ ov).2._state) := by
  have main : ∀ (l : List Int) (t : OwieBatterySensor.State),
      (∀ ov ∈ l, ov = -1 ∨ 0 ≤ ov) → 0 ≤ t._state →
      (∀ v ∈ (OwieBatterySensor.reads t l).1, 0 ≤ v)
      ∧ 0 ≤ (OwieBatterySensor.reads t l).2._state := by
    intro l
    induction l with
    | nil => intro t _ ht; exact ⟨by simp [OwieBatterySensor.reads], ht⟩
    | cons a l ih =>
      intro t hall ht
      have hstep := battery_step_nonneg t a ht (hall a (by simp))
      have ihh := ih (OwieBatterySensor.state t a).2
        (fun ov hov => hall ov (by simp [hov])) hstep.2
      refine ⟨?_, ?_⟩
      · intro v hv
        simp only [OwieBatterySensor.reads, List.mem_cons] at hv
        rcases hv with rfl | hv
        · exact hstep.1
        · exact ihh.1 v hv
      · exact ihh.2
  refine ⟨(main ovs s hovs hs).1, (main ovs s hovs hs).2, ?_, ?_⟩
  · intro r ov hr
    simpa [OwieBatterySensor.state] using hr
  · intro ov hov
    have hne : ov ≠ -1 := by omega
    simpa [OwieBatterySensor.state, hne] using hov

/-- Witness for the C4 theorem at the holder state after adopting 42 and
the override sequence sentinel, 67, sentinel. -/
theorem battery_never_negative_after_adoption_witness :
    (∀ v ∈ (OwieBatterySensor.reads ⟨42, none⟩ [-1, 67, -1]).1, 0 ≤ v)
    ∧ 0 ≤ (OwieBatterySensor.reads ⟨42, none⟩ [-1, 67, -1]).2._state
    ∧ (∀ r ov : Int, 0 ≤ r →
        0 ≤ (OwieBatterySensor.state ⟨-1, some r⟩ ov).2._state)
    ∧ (∀ ov : Int, 0 ≤ ov →
        0 ≤ (OwieBatterySensor.state ⟨-1, none⟩ ov).2._state) :=
  battery_never_negative_after_adoption [-1, 67, -1] ⟨42, none⟩
    (by decide) (by decide)

/-- One read of the connectivity `is_on` property keeps `missed_count`
within `[0, max_missed]` when it was there before (for a non-negative
configured bound). -/
theorem conn_step_inv (mpm : Int) (hm : 0 ≤ mpm)
    (s : OwieConnectivitySensor.State) (u : String)
    (h : 0 ≤ s._missed_packets ∧ s._missed_packets ≤ mpm) :
    0 ≤ (OwieConnectivitySensor.is_on mpm s u).2._missed_packets
    ∧ (OwieConnectivitySensor.is_on mpm s u).2._missed_packets ≤ mpm := by
  obtain ⟨h0, h1⟩ := h
  unfold OwieConnectivitySensor.is_on
  split_ifs with hc1 hc2 hc3
  · exact ⟨show (0 : Int) ≤ s._missed_packets + 1 by omega,
           show s._missed_packets + 1 ≤ mpm by omega⟩
  · exact ⟨h0, h1⟩
  · exact ⟨le_refl 0, hm⟩
  · exact ⟨le_refl 0, hm⟩

/-- Any sequence of reads of the connectivity `is_on` property keeps
`missed_count` within `[0, max_missed]`. -/
theorem conn_reads_inv (mpm : Int) (hm : 0 ≤ mpm) :
    ∀ (l : List String) (s : OwieConnectivitySensor.State),
      0 ≤ s._missed_packets ∧ s._missed_packets ≤ mpm →
      0 ≤ (OwieConnectivitySensor.reads mpm s l).2._missed_packets
      ∧ (OwieConnectivitySensor.reads mpm s l).2._missed_packets ≤ mpm
  | [], s, h => h
  | u :: rest, s, h => by
    have hstep := conn_step_inv mpm hm s u h
    simpa [OwieConnectivitySensor.reads] using
      conn_reads_inv mpm hm rest (OwieConnectivitySensor.is_on mpm s u).2 hstep

/-- C6: for any configured `max_missed ≥ 0`, every state reachable from the
initial tracker state by a sequence of uptime readings has
`missed_count ∈ [0, max_missed]` (every prefix of a reading sequence is a
reading sequence, so this covers the state after every read); and a read
whose uptime differs from the stored previous uptime, or equals
`'Offline'`, resets `missed_count` to 0 from any state. -/
theorem connectivity_missed_count_invariant (mpm : Int) (hm : 0 ≤ mpm) :
    (∀ readings : List String,
      0 ≤ (OwieConnectivitySensor.reads mpm OwieConnectivitySensor.init
        readings).2._missed_packets
      ∧ (OwieConnectivitySensor.reads mpm OwieConnectivitySensor.init
        readings).2._missed_packets ≤ mpm)
    ∧ (∀ (s : OwieConnectivitySensor.State) (u : String),
        u ≠ s._old_uptime ∨ u = "Offline" →
        (OwieConnectivitySensor.is_on mpm s u).2._missed_packets = 0) := by
  constructor
  · intro readings
    exact conn_reads_inv mpm hm readings OwieConnectivitySensor.init
      ⟨le_refl 0, hm⟩
  · intro s u h
    unfold OwieConnectivitySensor.is_on
    split_ifs with hc1 hc2 hc3
    · exfalso; rcases h with h | h
      · exact h hc1.2
      · exact hc1.1 h
    · exfalso; rcases h with h | h
      · exact h hc1.2
      · exact hc1.1 h
    · rfl
    · rfl

/-- Witness for the C6 theorem at `max_missed = 3`, the C1 reading sequence
and a fresh-uptime reset read. -/
theorem connectivity_missed_count_invariant_witness :
    (0 ≤ (OwieConnectivitySensor.reads 3 OwieConnectivitySensor.init
        ["Offline", "10", "10", "10", "10"]).2._missed_packets
      ∧ (OwieConnectivitySensor.reads 3 OwieConnectivitySensor.init
        ["Offline", "10", "10", "10", "10"]).2._missed_packets ≤ 3)
    ∧ (OwieConnectivitySensor.is_on 3 OwieConnectivitySensor.init
        "10").2._missed_packets = 0 :=
  ⟨(connectivity_missed_count_invariant 3 (by decide)).1
      ["Offline", "10", "10", "10", "10"],
   (connectivity_missed_count_invariant 3 (by decide)).2
      OwieConnectivitySensor.init "10" (Or.inl (by decide))⟩

/-- C7: whenever the charging sensor's connectivity block decides the
device is not connected (`_connected = false` after the read), the read
reports not-charging, stores `current_current = 0` regardless of the cached
amperage, and the derived charge-speed attribute is `'Not Charging'`. -/
theorem charging_disconnected_reports_not_charging (mpm : Int)
    (s : OwieChargingSensor.State) (u : String) (amps : ℚ)
    (h : (OwieChargingSensor.is_on mpm s u amps).2._connected = false) :
    (OwieChargingSensor.is_on mpm s u amps).1 = false
    ∧ (OwieChargingSensor.is_on mpm s u amps).2.current_current = 0
    ∧ OwieChargingSensor.charge_speed_attribute
        (OwieChargingSensor.is_on mpm s u amps).2 = "Not Charging" := by
  unfold OwieChargingSensor.is_on at h ⊢
  set s1 := OwieChargingSensor.connectivity_update mpm s u with hs1
  by_cases hc : s1._connected = true
  · exfalso
    rw [if_pos hc] at h
    rcases le_or_lt 0 amps with ha | ha
    · rw [if_pos ha] at h
      have h' : s1._connected = false := h
      rw [hc] at h'
      exact absurd h' (by decide)
    · rw [if_neg (not_le.mpr ha)] at h
      have h' : s1._connected = false := h
      rw [hc] at h'
      exact absurd h' (by decide)
  · rw [if_neg hc]
    refine ⟨rfl, rfl, ?_⟩
    simp [OwieChargingSensor.charge_speed_attribute, charge_speed]

/-- Witness for the C7 theorem: an `'Offline'` reading from the initial
charging-sensor state with cached amperage 5. -/
theorem charging_disconnected_reports_not_charging_witness :
    ((OwieChargingSensor.is_on 3 OwieChargingSensor.init "Offline" 5).2._connected
        = false)
    ∧ ((OwieChargingSensor.is_on 3 OwieChargingSensor.init "Offline" 5).1 = false
      ∧ (OwieChargingSensor.is_on 3 OwieChargingSensor.init
          "Offline" 5).2.current_current = 0
      ∧ OwieChargingSensor.charge_speed_attribute
          (OwieChargingSensor.is_on 3 OwieChargingSensor.init "Offline" 5).2
          = "Not Charging") :=
  ⟨by decide,
   charging_disconnected_reports_not_charging 3 OwieChargingSensor.init
     "Offline" 5 (by decide)⟩

/-- Witness for the C10 theorem at `max_missed = 3`, stale counter 5 and
stored uptime `"10"`. -/
theorem offline_then_same_uptime_witness :
    OwieConnectivitySensor.reads 3 ⟨"x", "10", 5⟩ ["Offline", "10"]
      = ([false, true], ⟨"10", "10", 1⟩) :=
  offline_then_same_uptime 3 5 "x" "10" (by decide) (by decide)

end Owie
